import Mathlib

/-!
# Verification of the glaukos state-distribution core

This file gives a shallow embedding of the glaukos library
(`src/index.tsx` and its historical variant with the `deepMemoize` and
`forceAsyncHandlers` options): JavaScript values with allocation
identity, the lodash `isEqual`-based snapshot memoizer
(`useDeepCompareMemoize` / `useDeepCompareMemo`), the provider update
cycle (handler back-reference refresh, one-time proxy/refs/children
capture, store memoization), the handler proxy in passthrough and
forced-deferred modes together with a small event-loop model for the
`setTimeout`-based deferral, and the module-level construction logic
(option validation, duplicate-name check, slot allocation).

The selective-subscription primitive itself (`use-context-selector`) is
an external dependency that is not part of the repository; its
notification test is modelled from the specification (see
`observerNotified`).
-/

namespace Glaukos

/-! ## JavaScript values with allocation identity -/

mutual
/-- A JavaScript value as it appears in a glaukos store snapshot:
primitives compare by value, while arrays and plain objects carry an
allocation identity `id`, so that reference equality (`Object.is`, the
`DecidableEq` equality of this type) and structural equality (lodash
`isEqual`, which ignores the ids, see `structEq`) can be told apart.
Object fields are kept in insertion order, the order JavaScript
preserves for the freshly destructured snapshot objects glaukos
handles. -/
inductive JsVal where
  | num (n : Int)
  | str (s : String)
  | bool (b : Bool)
  | null
  | arr (id : Nat) (elems : JsArr)
  | obj (id : Nat) (fields : JsObj)
deriving DecidableEq, Repr

/-- The element list of a JavaScript array value. -/
inductive JsArr where
  | nil
  | cons (hd : JsVal) (tl : JsArr)
deriving DecidableEq, Repr

/-- The ordered field list of a JavaScript object value. -/
inductive JsObj where
  | nil
  | cons (key : String) (val : JsVal) (tl : JsObj)
deriving DecidableEq, Repr
end

mutual
/-- Erase allocation identities, keeping only structure.  Two values are
related by lodash `isEqual` exactly when their stripped forms coincide. -/
def strip : JsVal → JsVal
  | .num n => .num n
  | .str s => .str s
  | .bool b => .bool b
  | .null => .null
  | .arr _ xs => .arr 0 (stripArr xs)
  | .obj _ fs => .obj 0 (stripObj fs)

/-- `strip` on every element of an array. -/
def stripArr : JsArr → JsArr
  | .nil => .nil
  | .cons x xs => .cons (strip x) (stripArr xs)

/-- `strip` on every field value of an object. -/
def stripObj : JsObj → JsObj
  | .nil => .nil
  | .cons k v fs => .cons k (strip v) (stripObj fs)
end

/-- Lodash `isEqual`: recursive structural equality, blind to which
allocation a value came from. -/
def structEq (a b : JsVal) : Bool := strip a == strip b

/-- The keys of an object field list, in order. -/
def JsObj.keyList : JsObj → List String
  | .nil => []
  | .cons k _ fs => k :: fs.keyList

/-- Modelled from the spec: the repository delegates observer
notification to the external `use-context-selector` package, which is
not part of the source tree.  Per the spec, a re-evaluated selection is
compared with the observer's previously recorded selection by *shallow
field-wise equality*: two object selections are equivalent when they
are the same reference, or when they have the same keys in the same
order and every field value is pairwise reference-equal; any other
selection is equivalent only to itself. -/
def shallowEq (a b : JsVal) : Bool :=
  a == b ||
    match a, b with
    | .obj _ xs, .obj _ ys => xs == ys
    | _, _ => false

/-! ## Snapshot memoizer (`useDeepCompareMemoize` / `useDeepCompareMemo`) -/

/-- Lodash `isEqual` on React dependency lists (arrays of values). -/
def isEqualDeps (xs ys : List JsVal) : Bool := xs.map strip == ys.map strip

/-- `useDeepCompareMemoize` from the source: the hook keeps a ref to the
last retained dependency list and overwrites it with the incoming one
only when lodash `isEqual` reports a difference; it returns the (possibly
unchanged) retained list, which serves as the baseline for the next
comparison.  `refCur` is the retained list, `value` the incoming one. -/
def useDeepCompareMemoize (refCur value : List JsVal) : List JsVal :=
  if isEqualDeps value refCur then refCur else value

/-- The memoizer's replacement test: the retained dependency list is
replaced exactly when the candidate is *not* `isEqual` to it. -/
def shouldReplace (refCur value : List JsVal) : Bool :=
  !isEqualDeps value refCur

/-- The store value actually handed to the selectable context provider
on an update cycle.  With `deepMemoize` (the default) the source routes
the store through `useDeepCompareMemo(() => store, [store])`, which
keeps providing the previously provided store object whenever lodash
`isEqual` finds the fresh one structurally equal to it; with
`deepMemoize` disabled a plain `useMemo(() => store, [store])` provides
the freshly supplied store object. -/
def memoizedStoreStep (deepMemoize : Bool) (prevCtx store : JsVal) : JsVal :=
  if deepMemoize then
    (if useDeepCompareMemoize [prevCtx] [store] = [prevCtx] then prevCtx else store)
  else store

/-! ## Handlers and the handler proxy -/

/-- The observable behaviour of one user handler invocation: it can
return a plain value, throw synchronously, or return a promise that
later resolves or rejects. -/
inductive HOutcome where
  | ret (v : JsVal)
  | thrown (e : JsVal)
  | asyncRet (v : JsVal)
  | asyncThrown (e : JsVal)
deriving DecidableEq, Repr

/-- A user-supplied handler, abstracted to one argument. -/
def HandlerFn : Type := JsVal → HOutcome

/-- Look a handler up by name in a handler table (a JavaScript object
read modelled on an association list). -/
def lookupHandler (t : List (String × HandlerFn)) (k : String) : Option HandlerFn :=
  (t.find? (fun p => p.1 == k)).map (fun p => p.2)

/-! ## The provider update cycle -/

/-- The per-instance mutable state the `Provider` component maintains:
the store object currently provided to the selectable context
(`ctxVal`), the handler back-reference `handlersRef.current`
(`backref`), the wrapper table built on the first render (its key set
`proxyKeys` and its allocation identity `proxyId`), the refs object
stored into the global registry slot (`refsVal`), the memoized child
subtree identity (`childVal`), and whether the first render has
happened (`mounted`). -/
structure InstanceState where
  ctxVal : JsVal
  backref : List (String × HandlerFn)
  proxyKeys : List String
  proxyId : Nat
  refsVal : JsVal
  childVal : Nat
  mounted : Bool

/-- What one invocation of the user hook supplies to a render of the
`Provider`: the fresh store, handler table and refs object, the children
value passed to the component, and the allocation identity the proxied
handler object would get if it were (re)built on this render. -/
structure CycleInput where
  store : JsVal
  handlers : List (String × HandlerFn)
  refs : JsVal
  child : Nat
  freshProxyId : Nat

/-- One render of the `Provider` component, in source order:
`handlersRef.current = sourceHandlers` runs via a `useMemo` keyed on the
handler table; the proxied-handler object, the registry refs slot and
the memoized children are built inside `useMemo(..., [])` blocks and are
therefore captured on the first render only; finally the store is routed
through the memoizer into the context provider. -/
def updateCycle (deepMemoize : Bool) (st : InstanceState) (inp : CycleInput) :
    InstanceState :=
  { ctxVal := memoizedStoreStep deepMemoize st.ctxVal inp.store
  , backref := inp.handlers
  , proxyKeys := if st.mounted then st.proxyKeys else inp.handlers.map Prod.fst
  , proxyId := if st.mounted then st.proxyId else inp.freshProxyId
  , refsVal := if st.mounted then st.refsVal else inp.refs
  , childVal := if st.mounted then st.childVal else inp.child
  , mounted := true }

/-- `useRefs`: reads the refs object out of the instance's registry
slot; never subscribes to anything. -/
def readRefs (st : InstanceState) : JsVal := st.refsVal

/-- The child subtree the `Provider` renders inside the context
provider: the `useMemo(() => children, [])` capture. -/
def renderedChild (st : InstanceState) : Nat := st.childVal

/-- The state of one `BridgeProvider`: the child subtree captured by its
`useMemo(() => children, [children])`. -/
structure BridgeState where
  child : Nat
deriving DecidableEq, Repr

/-- One render of the `BridgeProvider`: its children memo is keyed on
`[children]`, so a newly supplied children value is re-captured (and an
identical one leaves the capture unchanged, which is the same value). -/
def bridgeRender (_st : BridgeState) (children : Nat) : BridgeState :=
  { child := children }

/-- Invoking a wrapper from the proxied handler table in passthrough
mode (`forceAsyncHandlers` disabled): the wrapper exists only if its key
was present at first render, and it calls straight through the
back-reference to the *current* handler, returning that handler's
outcome unchanged. -/
def invokeWrapperSync (st : InstanceState) (k : String) (arg : JsVal) :
    Option HOutcome :=
  if k ∈ st.proxyKeys then (lookupHandler st.backref k).map (fun f => f arg) else none

/-! ## Event-loop model for forced-deferred handler invocation -/

/-- The state of the deferred result a forced-async wrapper returns. -/
inductive PromiseState where
  | pending
  | resolved (v : JsVal)
  | rejected (e : JsVal)
deriving DecidableEq, Repr

/-- A task sitting in the host scheduler's queue: either the
`setTimeout` callback that runs the underlying handler, or the second
`setTimeout` hop that resolves the wrapper's promise with the handler's
response. -/
inductive DTask where
  | runHandler (f : HandlerFn) (arg : JsVal)
  | resolveWith (v : JsVal)

/-- The event loop's state after a forced-deferred wrapper invocation:
the pending scheduler queue plus the state of the promise the wrapper
returned to its caller. -/
structure LoopState where
  queue : List DTask
  promise : PromiseState

/-- Settle helpers: a promise settles at most once. -/
def settleResolve (p : PromiseState) (v : JsVal) : PromiseState :=
  match p with
  | .pending => .resolved v
  | other => other

/-- Reject counterpart of `settleResolve`. -/
def settleReject (p : PromiseState) (e : JsVal) : PromiseState :=
  match p with
  | .pending => .rejected e
  | other => other

/-- One turn of the host's cooperative scheduler.  Running the
`runHandler` task mirrors the source: the underlying handler is called
and awaited inside a `try`; a synchronous throw or an `await`-surfaced
rejection rejects the wrapper's promise immediately, while a plain or
promise-resolved response schedules a further `setTimeout` hop that
resolves the wrapper's promise with the response. -/
def stepLoop : LoopState → LoopState
  | ⟨[], p⟩ => ⟨[], p⟩
  | ⟨.runHandler f arg :: rest, p⟩ =>
      match f arg with
      | .ret v => ⟨rest ++ [.resolveWith v], p⟩
      | .asyncRet v => ⟨rest ++ [.resolveWith v], p⟩
      | .thrown e => ⟨rest, settleReject p e⟩
      | .asyncThrown e => ⟨rest, settleReject p e⟩
  | ⟨.resolveWith v :: rest, p⟩ => ⟨rest, settleResolve p v⟩

/-- Calling a forced-deferred wrapper: it synchronously returns a fresh
pending promise after scheduling the handler run with `setTimeout`;
nothing else happens during the call itself. -/
def invokeDeferred (f : HandlerFn) (arg : JsVal) : LoopState :=
  ⟨[.runHandler f arg], .pending⟩

/-- Invoking a wrapper from the proxied handler table in forced-deferred
mode (`forceAsyncHandlers` enabled). -/
def invokeWrapperForced (st : InstanceState) (k : String) (arg : JsVal) :
    Option LoopState :=
  if k ∈ st.proxyKeys then
    (lookupHandler st.backref k).map (fun f => invokeDeferred f arg)
  else none

/-- A promise has settled when it is no longer pending. -/
def PromiseState.isSettled : PromiseState → Bool
  | .pending => false
  | _ => true

/-! ## Observer notification (spec-modelled) -/

/-- The selection the `useStore` hook registers: apply the selector when
one was passed, otherwise return the whole context store. -/
def selApply (sel : Option (JsVal → JsVal)) (v : JsVal) : JsVal :=
  match sel with
  | some f => f v
  | none => v

/-- Modelled from the spec: the external subscription primitive
(`use-context-selector`, absent from the repository) re-invokes an
observer after the context value moves from `prevCtx` to `newCtx` iff
the observer's selection of the new value differs from its selection of
the previous value by shallow field-wise equality (`shallowEq`). -/
def observerNotified (sel : Option (JsVal → JsVal)) (prevCtx newCtx : JsVal) : Bool :=
  !shallowEq (selApply sel newCtx) (selApply sel prevCtx)

/-- Whether an observer is notified as a consequence of one provider
update cycle: the context value moves from `st.ctxVal` to the memoized
store the cycle provides. -/
def cycleNotified (deepMemoize : Bool) (sel : Option (JsVal → JsVal))
    (st : InstanceState) (inp : CycleInput) : Bool :=
  observerNotified sel st.ctxVal (updateCycle deepMemoize st inp).ctxVal

/-! ## Construction (`glaukos(useHook, opts)`) and the global registry -/

/-- The operation mode: `process.env.NODE_ENV` either is or is not the
string `development`. -/
inductive Mode where
  | development
  | production
deriving DecidableEq, Repr

/-- The configuration errors `glaukos` raises synchronously. -/
inductive GError where
  | missingOptions
  | missingName
  | duplicateName
deriving DecidableEq, Repr

/-- The runtime shape of the options object: each property may be
absent. -/
structure GOpts where
  name : Option String
  deepMemoize : Option Bool
  forceAsyncHandlers : Option Bool
deriving DecidableEq, Repr

/-- The module-level global registry: the set of names registered by
provider first renders, the allocated per-instance slot ids, and the
lodash `uniqueId` counter. -/
structure GEnv where
  names : List String
  slotIds : List Nat
  nextId : Nat
deriving DecidableEq, Repr

/-- Either the instance id a construction call returned, or the
configuration error it threw. -/
inductive COutcome where
  | ok (id : Nat)
  | err (e : GError)
deriving DecidableEq, Repr

/-- Whether a construction call returned normally. -/
def COutcome.isOk : COutcome → Bool
  | .ok _ => true
  | .err _ => false

/-- The observable result of one `glaukos(useHook, opts)` call: the
global registry afterwards, the constructed instance id or the error
thrown, and whether a duplicate-name warning was logged via
`console.error`. -/
structure GResult where
  env : GEnv
  outcome : COutcome
  warned : Bool
deriving DecidableEq, Repr

/-- `glaukos(useHook, opts)`, in source order: a missing options object
throws; a missing `name` property throws; a name already present in the
global name registry throws in development mode and logs a
`console.error` warning otherwise; then a fresh `uniqueId` is minted and
an empty registry slot is allocated for it.  Note that the name itself
is *not* registered here: the source registers it inside the provider's
first-render `useMemo` (see `providerFirstRender`). -/
def glaukosConstruct (mode : Mode) (env : GEnv) (opts : Option GOpts) : GResult :=
  match opts with
  | none => ⟨env, .err .missingOptions, false⟩
  | some o =>
    match o.name with
    | none => ⟨env, .err .missingName, false⟩
    | some nm =>
      if nm ∈ env.names ∧ mode = .development then
        ⟨env, .err .duplicateName, false⟩
      else
        ⟨{ names := env.names
         , slotIds := env.slotIds ++ [env.nextId]
         , nextId := env.nextId + 1 }
        , .ok env.nextId
        , decide (nm ∈ env.names)⟩

/-- The first render of an instance's `Provider` registers the
instance's name in the global name registry (inside the
`useMemo(..., [])` block that also fills the registry slot). -/
def providerFirstRender (env : GEnv) (nm : String) : GEnv :=
  { env with names := nm :: env.names }

/-! ## Helper lemmas -/

theorem shallowEq_refl (a : JsVal) : shallowEq a a = true := by
  simp [shallowEq]

theorem structEq_refl (a : JsVal) : structEq a a = true := by
  simp [structEq]

theorem structEq_of_shallowEq {a b : JsVal} (h : shallowEq a b = true) :
    structEq a b = true := by
  cases a <;> cases b <;> simp_all [shallowEq, structEq, strip]
  rcases h with ⟨_, h⟩ | h <;> rw [h]

theorem isEqualDeps_singleton (a b : JsVal) :
    isEqualDeps [a] [b] = structEq a b := by
  simp [isEqualDeps, structEq]

theorem memoizedStoreStep_deep_of_structEq {p s : JsVal}
    (h : structEq s p = true) : memoizedStoreStep true p s = p := by
  simp [memoizedStoreStep, useDeepCompareMemoize, isEqualDeps_singleton, h]

theorem memoizedStoreStep_deep_of_not_structEq {p s : JsVal}
    (h : structEq s p = false) : memoizedStoreStep true p s = s := by
  have hne : s ≠ p := by
    intro he; subst he; simp [structEq_refl] at h
  simp [memoizedStoreStep, useDeepCompareMemoize, isEqualDeps_singleton, h, hne]

/-! ## Claim theorems -/

/-- C9: in the snapshot memoizer the retained value is updated only when
`shouldReplace` reports a change under the active (structural) equality;
a candidate judged equivalent is discarded and the previously retained
value continues to serve as the comparison baseline. -/
theorem c9_memoizer_baseline (refCur value : List JsVal) :
    useDeepCompareMemoize refCur value
      = (if shouldReplace refCur value then value else refCur) := by
  unfold useDeepCompareMemoize shouldReplace
  cases h : isEqualDeps value refCur <;> simp [h]

/-- C4: with `forceAsyncHandlers` enabled, invoking a wrapped handler
whose underlying callback synchronously returns `v` yields a deferred
result that is still pending when the call returns (and still pending
after the first scheduler turn, which runs the callback), and that
resolves to the same `v` on a later scheduler turn — never synchronously
during the call. -/
theorem c4_forced_deferred_resolution (st : InstanceState) (k : String)
    (f : HandlerFn) (arg v : JsVal)
    (hk : k ∈ st.proxyKeys) (hf : lookupHandler st.backref k = some f)
    (hret : f arg = .ret v) :
    invokeWrapperForced st k arg = some (invokeDeferred f arg)
    ∧ (invokeDeferred f arg).promise = .pending
    ∧ (stepLoop (invokeDeferred f arg)).promise = .pending
    ∧ (stepLoop (stepLoop (invokeDeferred f arg))).promise = .resolved v := by
  refine ⟨?_, rfl, ?_, ?_⟩
  · simp [invokeWrapperForced, hk, hf]
  · simp [invokeDeferred, stepLoop, hret]
  · simp [invokeDeferred, stepLoop, hret, settleResolve]

/-- Concrete run of `c4_forced_deferred_resolution`: a handler table
with one synchronous handler returning `7`, invoked through the forced
proxy. -/
def c4wHandler : HandlerFn := fun _ => .ret (.num 7)

/-- The instance state for the C4 witness: one wrapper built for key
`onX`, back-reference pointing at `c4wHandler`. -/
def c4wState : InstanceState :=
  ⟨.obj 0 .nil, [("onX", c4wHandler)], ["onX"], 1, .obj 1 .nil, 0, true⟩

theorem c4_forced_deferred_resolution_witness :
    invokeWrapperForced c4wState "onX" .null = some (invokeDeferred c4wHandler .null)
    ∧ (invokeDeferred c4wHandler .null).promise = .pending
    ∧ (stepLoop (invokeDeferred c4wHandler .null)).promise = .pending
    ∧ (stepLoop (stepLoop (invokeDeferred c4wHandler .null))).promise
        = .resolved (.num 7) :=
  c4_forced_deferred_resolution c4wState "onX" c4wHandler .null (.num 7)
    (by simp [c4wState]) rfl rfl

/-- C5: a synchronous throw in passthrough mode is re-thrown unchanged
to the caller; in forced-deferred mode a synchronous throw or an
asynchronous rejection of the underlying callback rejects the deferred
result with the same error; and every deferred invocation, once
scheduled, settles within two scheduler turns whatever the callback
does. -/
theorem c5_error_propagation (st : InstanceState) (k : String)
    (f g : HandlerFn) (arg arg2 e e2 : JsVal)
    (hk : k ∈ st.proxyKeys) (hf : lookupHandler st.backref k = some f)
    (hthrow : f arg = .thrown e) (hreject : g arg2 = .asyncThrown e2) :
    invokeWrapperSync st k arg = some (.thrown e)
    ∧ (stepLoop (invokeDeferred f arg)).promise = .rejected e
    ∧ (stepLoop (invokeDeferred g arg2)).promise = .rejected e2
    ∧ ∀ (h : HandlerFn) (a : JsVal),
        ((stepLoop (stepLoop (invokeDeferred h a))).promise).isSettled = true := by
  refine ⟨?_, ?_, ?_, ?_⟩
  · simp [invokeWrapperSync, hk, hf, hthrow]
  · simp [invokeDeferred, stepLoop, hthrow, settleReject]
  · simp [invokeDeferred, stepLoop, hreject, settleReject]
  · intro h a
    cases hcase : h a <;>
      simp [invokeDeferred, stepLoop, hcase, settleReject, settleResolve,
        PromiseState.isSettled]

/-- A handler that throws synchronously, for the C5 witness. -/
def c5wThrowing : HandlerFn := fun _ => .thrown (.str "boom")

/-- A handler that returns a rejecting promise, for the C5 witness. -/
def c5wRejecting : HandlerFn := fun _ => .asyncThrown (.str "later")

/-- The instance state for the C5 witness. -/
def c5wState : InstanceState :=
  ⟨.obj 0 .nil, [("onX", c5wThrowing)], ["onX"], 1, .obj 1 .nil, 0, true⟩

theorem c5_error_propagation_witness :
    invokeWrapperSync c5wState "onX" .null = some (.thrown (.str "boom"))
    ∧ (stepLoop (invokeDeferred c5wThrowing .null)).promise = .rejected (.str "boom")
    ∧ (stepLoop (invokeDeferred c5wRejecting .null)).promise = .rejected (.str "later")
    ∧ ∀ (h : HandlerFn) (a : JsVal),
        ((stepLoop (stepLoop (invokeDeferred h a))).promise).isSettled = true :=
  c5_error_propagation c5wState "onX" c5wThrowing c5wRejecting .null .null
    (.str "boom") (.str "later") (by simp [c5wState]) rfl rfl rfl

/-- C6: across two consecutive update cycles that both supply a refs
table, the attachment-points reader returns the very same object after
cycle 2 as after cycle 1, namely the table supplied on the first cycle;
and a cycle on an already-mounted instance never overwrites the registry
refs slot. -/
theorem c6_refs_stability (deepMemoize : Bool) (st0 st : InstanceState)
    (i1 i2 i : CycleInput) (h0 : st0.mounted = false) (hm : st.mounted = true) :
    readRefs (updateCycle deepMemoize (updateCycle deepMemoize st0 i1) i2)
      = readRefs (updateCycle deepMemoize st0 i1)
    ∧ readRefs (updateCycle deepMemoize st0 i1) = i1.refs
    ∧ (updateCycle deepMemoize st i).refsVal = st.refsVal := by
  simp [readRefs, updateCycle, h0, hm]

/-- An unmounted instance state for the C6 witness. -/
def c6wState : InstanceState := ⟨.obj 0 .nil, [], [], 0, .obj 9 .nil, 0, false⟩

/-- A mounted instance state for the C6 witness. -/
def c6wMounted : InstanceState := ⟨.obj 0 .nil, [], [], 0, .obj 3 .nil, 0, true⟩

/-- First-cycle input for the C6 witness: supplies the refs object with
allocation identity 4. -/
def c6wInput1 : CycleInput := ⟨.obj 1 .nil, [], .obj 4 .nil, 0, 0⟩

/-- Second-cycle input for the C6 witness: supplies a different refs
object (allocation identity 5). -/
def c6wInput2 : CycleInput := ⟨.obj 2 .nil, [], .obj 5 .nil, 0, 0⟩

theorem c6_refs_stability_witness :
    readRefs (updateCycle true (updateCycle true c6wState c6wInput1) c6wInput2)
      = readRefs (updateCycle true c6wState c6wInput1)
    ∧ readRefs (updateCycle true c6wState c6wInput1) = c6wInput1.refs
    ∧ (updateCycle true c6wMounted c6wInput2).refsVal = c6wMounted.refsVal :=
  c6_refs_stability true c6wState c6wMounted c6wInput1 c6wInput2 c6wInput2 rfl rfl

/-- C10: the subtree provider renders the children captured on its first
update cycle forever — a different children value supplied on a later
cycle is ignored, and an already-mounted instance's rendered child never
changes — whereas the bridge provider re-captures the children value
supplied to the current render. -/
theorem c10_children_capture (deepMemoize : Bool) (st0 st : InstanceState)
    (i1 i2 i : CycleInput) (b : BridgeState) (c : Nat)
    (h0 : st0.mounted = false) (hm : st.mounted = true) :
    renderedChild (updateCycle deepMemoize (updateCycle deepMemoize st0 i1) i2)
      = i1.child
    ∧ (updateCycle deepMemoize st i).childVal = st.childVal
    ∧ (bridgeRender b c).child = c := by
  simp [renderedChild, updateCycle, bridgeRender, h0, hm]

/-- An unmounted instance state for the C10 witness. -/
def c10wState : InstanceState := ⟨.obj 0 .nil, [], [], 0, .null, 0, false⟩

/-- A mounted instance state for the C10 witness (rendered child 11). -/
def c10wMounted : InstanceState := ⟨.obj 0 .nil, [], [], 0, .null, 11, true⟩

/-- First-cycle input for the C10 witness: children value 21. -/
def c10wInput1 : CycleInput := ⟨.obj 1 .nil, [], .null, 21, 0⟩

/-- Second-cycle input for the C10 witness: a different children
value 22, which the provider must ignore. -/
def c10wInput2 : CycleInput := ⟨.obj 2 .nil, [], .null, 22, 0⟩

theorem c10_children_capture_witness :
    renderedChild (updateCycle true (updateCycle true c10wState c10wInput1) c10wInput2)
      = c10wInput1.child
    ∧ (updateCycle true c10wMounted c10wInput2).childVal = c10wMounted.childVal
    ∧ (bridgeRender ⟨21⟩ 22).child = 22 :=
  c10_children_capture true c10wState c10wMounted c10wInput1 c10wInput2 c10wInput2
    ⟨21⟩ 22 rfl rfl

/-- C3: after a later update cycle replaces the handler table
`{onX: f1}` with `{onX: f2}` (while the store is structurally
unchanged), invoking the wrapper that was built on the first cycle
dispatches to `f2` and cannot produce `f1`'s result; the wrapper
object's identity and key set are untouched by the replacement; the
context value is untouched as well, so no observer — whatever its
selector — is notified by the replacement (and wrapper invocation is a
pure read that publishes nothing). -/
theorem c3_handler_freshness (st : InstanceState) (inp : CycleInput)
    (f1 f2 : HandlerFn) (arg : JsVal) (sel : Option (JsVal → JsVal))
    (hm : st.mounted = true) (hk : "onX" ∈ st.proxyKeys)
    (_hold : lookupHandler st.backref "onX" = some f1)
    (hnew : inp.handlers = [("onX", f2)])
    (hstore : structEq inp.store st.ctxVal = true)
    (hne : f2 arg ≠ f1 arg) :
    invokeWrapperSync (updateCycle true st inp) "onX" arg = some (f2 arg)
    ∧ invokeWrapperSync (updateCycle true st inp) "onX" arg ≠ some (f1 arg)
    ∧ (updateCycle true st inp).proxyId = st.proxyId
    ∧ (updateCycle true st inp).proxyKeys = st.proxyKeys
    ∧ (updateCycle true st inp).ctxVal = st.ctxVal
    ∧ cycleNotified true sel st inp = false := by
  have hctx : (updateCycle true st inp).ctxVal = st.ctxVal := by
    simp [updateCycle, memoizedStoreStep_deep_of_structEq hstore]
  have hdispatch :
      invokeWrapperSync (updateCycle true st inp) "onX" arg = some (f2 arg) := by
    simp [invokeWrapperSync, updateCycle, hm, hk, hnew, lookupHandler]
  refine ⟨hdispatch, ?_, by simp [updateCycle, hm], by simp [updateCycle, hm],
    hctx, ?_⟩
  · rw [hdispatch]
    simp [hne]
  · unfold cycleNotified
    rw [hctx]
    simp [observerNotified, shallowEq_refl]

/-- The first-cycle handler for the C3 witness: returns `1`. -/
def c3wHandler1 : HandlerFn := fun _ => .ret (.num 1)

/-- The replacement handler for the C3 witness: returns `2`. -/
def c3wHandler2 : HandlerFn := fun _ => .ret (.num 2)

/-- The mounted instance state for the C3 witness: wrapper set built for
`onX`, back-reference still at `c3wHandler1`. -/
def c3wState : InstanceState :=
  ⟨.obj 0 (.cons "count" (.num 0) .nil), [("onX", c3wHandler1)], ["onX"], 5,
    .obj 1 .nil, 0, true⟩

/-- The replacement cycle input for the C3 witness: a structurally
identical fresh store together with the new handler table. -/
def c3wInput : CycleInput :=
  ⟨.obj 2 (.cons "count" (.num 0) .nil), [("onX", c3wHandler2)], .obj 3 .nil, 0, 8⟩

theorem c3_handler_freshness_witness :
    invokeWrapperSync (updateCycle true c3wState c3wInput) "onX" .null
      = some (c3wHandler2 .null)
    ∧ invokeWrapperSync (updateCycle true c3wState c3wInput) "onX" .null
      ≠ some (c3wHandler1 .null)
    ∧ (updateCycle true c3wState c3wInput).proxyId = c3wState.proxyId
    ∧ (updateCycle true c3wState c3wInput).proxyKeys = c3wState.proxyKeys
    ∧ (updateCycle true c3wState c3wInput).ctxVal = c3wState.ctxVal
    ∧ cycleNotified true none c3wState c3wInput = false :=
  c3_handler_freshness c3wState c3wInput c3wHandler1 c3wHandler2 .null none
    rfl (by simp [c3wState]) rfl rfl (by decide) (by decide)

/-- C1 (amended): for a snapshot `inp.store` that survives memoizer
suppression and reaches the broker as a fresh context value, an observer
with selector `f` is notified iff `f` of the new snapshot differs from
`f` of the previous one by shallow field-wise equality; an observer with
no selector is notified iff the snapshots themselves differ shallow
field-wise — under deep memoization (the default) every surviving fresh
snapshot does so differ, so the no-selector observer is then notified on
every survivor; and the full-snapshot change check is field-by-field:
two objects with pairwise reference-equal fields never notify, whatever
their own allocation identities. -/
theorem c1_selective_notification_amended (deepMemoize : Bool)
    (st : InstanceState) (inp : CycleInput) (f : JsVal → JsVal)
    (oid1 oid2 : Nat) (fs : JsObj)
    (hsurvive : (updateCycle deepMemoize st inp).ctxVal = inp.store)
    (hfresh : inp.store ≠ st.ctxVal) :
    cycleNotified deepMemoize (some f) st inp
      = !shallowEq (f inp.store) (f st.ctxVal)
    ∧ cycleNotified deepMemoize none st inp = !shallowEq inp.store st.ctxVal
    ∧ (deepMemoize = true → cycleNotified deepMemoize none st inp = true)
    ∧ observerNotified none (.obj oid1 fs) (.obj oid2 fs) = false := by
  have hctx : (updateCycle deepMemoize st inp).ctxVal = inp.store := hsurvive
  refine ⟨?_, ?_, ?_, ?_⟩
  · unfold cycleNotified
    rw [hctx]
    simp [observerNotified, selApply]
  · unfold cycleNotified
    rw [hctx]
    simp [observerNotified, selApply]
  · intro hdeep
    subst hdeep
    have hshallow : shallowEq inp.store st.ctxVal = false := by
      cases hsh : shallowEq inp.store st.ctxVal
      · rfl
      · exfalso
        have hkept : (updateCycle true st inp).ctxVal = st.ctxVal := by
          simp [updateCycle,
            memoizedStoreStep_deep_of_structEq (structEq_of_shallowEq hsh)]
        rw [hsurvive] at hkept
        exact hfresh hkept
    unfold cycleNotified
    rw [hctx]
    simp [observerNotified, selApply, hshallow]
  · simp [observerNotified, selApply, shallowEq]

/-- The previous cycle's state for the C1 counterexample: the context
holds the snapshot `{count: 0}` with allocation identity 0. -/
def c1cxState : InstanceState :=
  ⟨.obj 0 (.cons "count" (.num 0) .nil), [], [], 0, .null, 0, true⟩

/-- The publishing cycle for the C1 counterexample: a freshly allocated
snapshot (identity 1) whose single field is reference-equal to the
previous one, with deep memoization disabled so that the fresh
allocation survives the memoizer. -/
def c1cxInput : CycleInput :=
  ⟨.obj 1 (.cons "count" (.num 0) .nil), [], .null, 0, 0⟩

/-- C1 (counterexample to the claim as stated): with `deepMemoize`
disabled, the freshly allocated snapshot survives memoizer suppression
(it becomes the published context value and is a new reference), yet the
observer with no selector is *not* notified, because the field-by-field
check finds every field unchanged. -/
theorem c1_selective_notification_counterexample :
    (updateCycle false c1cxState c1cxInput).ctxVal = c1cxInput.store
    ∧ c1cxInput.store ≠ c1cxState.ctxVal
    ∧ cycleNotified false none c1cxState c1cxInput = false := by decide

/-- A concrete selector for the C1 witness: projects the `count` field
into a freshly allocated single-field object (identity 100), as a
destructuring selector would. -/
def c1wSelector : JsVal → JsVal
  | .obj _ (.cons _ v _) => .obj 100 (.cons "count" v .nil)
  | _ => .null

/-- The previous cycle's state for the C1 witness: context value
`{count: 0, quote: "a"}`. -/
def c1wState : InstanceState :=
  ⟨.obj 0 (.cons "count" (.num 0) (.cons "quote" (.str "a") .nil)), [], [], 0,
    .null, 0, true⟩

/-- The publishing cycle for the C1 witness: the structurally different
fresh snapshot `{count: 0, quote: "b"}`, which survives deep
memoization. -/
def c1wInput : CycleInput :=
  ⟨.obj 1 (.cons "count" (.num 0) (.cons "quote" (.str "b") .nil)), [], .null, 0, 0⟩

theorem c1_selective_notification_witness :
    cycleNotified true (some c1wSelector) c1wState c1wInput
      = !shallowEq (c1wSelector c1wInput.store) (c1wSelector c1wState.ctxVal)
    ∧ cycleNotified true none c1wState c1wInput
      = !shallowEq c1wInput.store c1wState.ctxVal
    ∧ (true = true → cycleNotified true none c1wState c1wInput = true)
    ∧ observerNotified none (.obj 3 (.cons "a" (.num 1) .nil))
        (.obj 4 (.cons "a" (.num 1) .nil)) = false :=
  c1_selective_notification_amended true c1wState c1wInput c1wSelector 3 4
    (.cons "a" (.num 1) .nil) (by decide) (by decide)

/-- C2 (amended): with `deepMemoize` enabled, publishing a snapshot that
is structurally equal to the previous one (however freshly allocated)
leaves the context value on the previous object and notifies no
observer, whatever its selector; with `deepMemoize` disabled, a
published snapshot notifies the no-selector observers exactly when it
differs from the previous context value by shallow field-wise equality —
in particular a fresh snapshot whose field values are themselves fresh
references (as in the spec's twice-built `{items: [{id: 1}]}` example)
does notify them. -/
theorem c2_memoization_suppression_amended (st st2 : InstanceState)
    (inp inp2 : CycleInput) (sel : Option (JsVal → JsVal))
    (hstruct : structEq inp.store st.ctxVal = true)
    (hshallow : shallowEq inp2.store st2.ctxVal = false) :
    (updateCycle true st inp).ctxVal = st.ctxVal
    ∧ cycleNotified true sel st inp = false
    ∧ cycleNotified false none st2 inp2 = true := by
  have hctx : (updateCycle true st inp).ctxVal = st.ctxVal := by
    simp [updateCycle, memoizedStoreStep_deep_of_structEq hstruct]
  refine ⟨hctx, ?_, ?_⟩
  · unfold cycleNotified
    rw [hctx]
    simp [observerNotified, shallowEq_refl]
  · unfold cycleNotified
    simp [updateCycle, memoizedStoreStep, observerNotified, selApply, hshallow]

/-- The previous cycle's state for the C2 counterexample: context value
`{a: x}` where `x` is the array allocation 5. -/
def c2cxState : InstanceState :=
  ⟨.obj 0 (.cons "a" (.arr 5 (.cons (.num 1) .nil)) .nil), [], [], 0, .null, 0,
    true⟩

/-- The publishing cycle for the C2 counterexample: a freshly allocated
snapshot (identity 1) that is structurally identical and whose field
still holds the *same* array reference (allocation 5). -/
def c2cxInput : CycleInput :=
  ⟨.obj 1 (.cons "a" (.arr 5 (.cons (.num 1) .nil)) .nil), [], .null, 0, 0⟩

/-- C2 (counterexample to the claim as stated): with `deepMemoize`
disabled, publishing a freshly allocated but structurally identical
snapshot does *not* always notify the no-selector observers — when the
fresh snapshot's field values are reference-equal to the previous ones,
the shallow field-wise check suppresses the notification. -/
theorem c2_memoization_suppression_counterexample :
    structEq c2cxInput.store c2cxState.ctxVal = true
    ∧ c2cxInput.store ≠ c2cxState.ctxVal
    ∧ cycleNotified false none c2cxState c2cxInput = false := by decide

/-- The previous cycle's state for the C2 witness: context value
`{items: [{id: 1}]}` built from allocations 5 and 6. -/
def c2wState : InstanceState :=
  ⟨.obj 0 (.cons "items"
      (.arr 5 (.cons (.obj 6 (.cons "id" (.num 1) .nil)) .nil)) .nil),
    [], [], 0, .null, 0, true⟩

/-- The deep-memoization publishing cycle for the C2 witness: the same
`{items: [{id: 1}]}` contents rebuilt from fresh allocations 1, 7
and 8. -/
def c2wInput : CycleInput :=
  ⟨.obj 1 (.cons "items"
      (.arr 7 (.cons (.obj 8 (.cons "id" (.num 1) .nil)) .nil)) .nil),
    [], .null, 0, 0⟩

theorem c2_memoization_suppression_witness :
    (updateCycle true c2wState c2wInput).ctxVal = c2wState.ctxVal
    ∧ cycleNotified true (some (fun v => v)) c2wState c2wInput = false
    ∧ cycleNotified false none c2wState c2wInput = true :=
  c2_memoization_suppression_amended c2wState c2wState c2wInput c2wInput
    (some (fun v => v)) (by decide) (by decide)

/-- C7 (amended): constructing an instance with an unused name succeeds;
once that instance's provider has rendered (which is when the source
registers the name), a second construction with the same name fails with
the duplicate-name configuration error in development mode, mutating
nothing, while in any other mode it succeeds with a logged warning,
minting a distinct instance id — both instances' registry slots then
coexist, so both remain independently queryable. -/
theorem c7_duplicate_name_amended (e0 : GEnv) (nm : String) (d fa : Option Bool)
    (h0 : nm ∉ e0.names) :
    (glaukosConstruct .development e0 (some ⟨some nm, d, fa⟩)).outcome
      = .ok e0.nextId
    ∧ glaukosConstruct .development
        (providerFirstRender
          (glaukosConstruct .development e0 (some ⟨some nm, d, fa⟩)).env nm)
        (some ⟨some nm, d, fa⟩)
      = ⟨providerFirstRender
          (glaukosConstruct .development e0 (some ⟨some nm, d, fa⟩)).env nm,
         .err .duplicateName, false⟩
    ∧ (glaukosConstruct .production
        (providerFirstRender
          (glaukosConstruct .development e0 (some ⟨some nm, d, fa⟩)).env nm)
        (some ⟨some nm, d, fa⟩)).outcome = .ok (e0.nextId + 1)
    ∧ (glaukosConstruct .production
        (providerFirstRender
          (glaukosConstruct .development e0 (some ⟨some nm, d, fa⟩)).env nm)
        (some ⟨some nm, d, fa⟩)).warned = true
    ∧ e0.nextId ∈ (glaukosConstruct .production
        (providerFirstRender
          (glaukosConstruct .development e0 (some ⟨some nm, d, fa⟩)).env nm)
        (some ⟨some nm, d, fa⟩)).env.slotIds
    ∧ e0.nextId + 1 ∈ (glaukosConstruct .production
        (providerFirstRender
          (glaukosConstruct .development e0 (some ⟨some nm, d, fa⟩)).env nm)
        (some ⟨some nm, d, fa⟩)).env.slotIds := by
  simp [glaukosConstruct, providerFirstRender, h0]

theorem c7_duplicate_name_witness :
    (glaukosConstruct .development ⟨[], [], 0⟩ (some ⟨some "App", none, none⟩)).outcome
      = .ok 0
    ∧ glaukosConstruct .development
        (providerFirstRender
          (glaukosConstruct .development ⟨[], [], 0⟩
            (some ⟨some "App", none, none⟩)).env "App")
        (some ⟨some "App", none, none⟩)
      = ⟨providerFirstRender
          (glaukosConstruct .development ⟨[], [], 0⟩
            (some ⟨some "App", none, none⟩)).env "App",
         .err .duplicateName, false⟩
    ∧ (glaukosConstruct .production
        (providerFirstRender
          (glaukosConstruct .development ⟨[], [], 0⟩
            (some ⟨some "App", none, none⟩)).env "App")
        (some ⟨some "App", none, none⟩)).outcome = .ok 1
    ∧ (glaukosConstruct .production
        (providerFirstRender
          (glaukosConstruct .development ⟨[], [], 0⟩
            (some ⟨some "App", none, none⟩)).env "App")
        (some ⟨some "App", none, none⟩)).warned = true
    ∧ 0 ∈ (glaukosConstruct .production
        (providerFirstRender
          (glaukosConstruct .development ⟨[], [], 0⟩
            (some ⟨some "App", none, none⟩)).env "App")
        (some ⟨some "App", none, none⟩)).env.slotIds
    ∧ 0 + 1 ∈ (glaukosConstruct .production
        (providerFirstRender
          (glaukosConstruct .development ⟨[], [], 0⟩
            (some ⟨some "App", none, none⟩)).env "App")
        (some ⟨some "App", none, none⟩)).env.slotIds :=
  c7_duplicate_name_amended ⟨[], [], 0⟩ "App" none none (by simp)

/-- C7 (counterexample to the claim as stated): two constructions with
the identical name, both in development (strict) mode — but with no
provider render in between — and the *second construction succeeds*,
because the source only registers a name on the provider's first render,
not at construction time. -/
theorem c7_duplicate_name_counterexample :
    ((glaukosConstruct .development
        (glaukosConstruct .development ⟨[], [], 0⟩
          (some ⟨some "Store", none, none⟩)).env
        (some ⟨some "Store", none, none⟩)).outcome) = .ok 1 := by decide

/-- C8 (amended): a construction that throws a configuration error
mutates nothing — the global registry is exactly as before, so no slot
is allocated and no partial instance is reachable, and no warning is
logged; a missing options object throws `missingOptions` and a missing
name throws `missingName`, in every mode; an *empty-string* name,
however, is rejected only by the compile-time type encoding — at runtime
a construction with name `""` (not already registered) succeeds. -/
theorem c8_construction_errors_amended (mode : Mode) (e : GEnv)
    (o : Option GOpts) (err : GError) (d fa : Option Bool)
    (h : (glaukosConstruct mode e o).outcome = .err err)
    (hempty : "" ∉ e.names) :
    (glaukosConstruct mode e o).env = e
    ∧ (glaukosConstruct mode e o).warned = false
    ∧ (glaukosConstruct mode e none).outcome = .err .missingOptions
    ∧ (glaukosConstruct mode e (some ⟨none, d, fa⟩)).outcome = .err .missingName
    ∧ (glaukosConstruct mode e (some ⟨some "", d, fa⟩)).outcome = .ok e.nextId := by
  refine ⟨?_, ?_, rfl, rfl, by simp [glaukosConstruct, hempty]⟩
  · rcases o with _ | o
    · rfl
    · rcases hnm : o.name with _ | nm
      · simp [glaukosConstruct, hnm]
      · by_cases hdup : nm ∈ e.names ∧ mode = .development
        · simp [glaukosConstruct, hnm, hdup]
        · simp [glaukosConstruct, hnm, hdup] at h
  · rcases o with _ | o
    · rfl
    · rcases hnm : o.name with _ | nm
      · simp [glaukosConstruct, hnm]
      · by_cases hdup : nm ∈ e.names ∧ mode = .development
        · simp [glaukosConstruct, hnm, hdup]
        · simp [glaukosConstruct, hnm, hdup] at h

theorem c8_construction_errors_witness :
    (glaukosConstruct .development ⟨[], [], 0⟩ none).env = ⟨[], [], 0⟩
    ∧ (glaukosConstruct .development ⟨[], [], 0⟩ none).warned = false
    ∧ (glaukosConstruct .development ⟨[], [], 0⟩ none).outcome
      = .err .missingOptions
    ∧ (glaukosConstruct .development ⟨[], [], 0⟩
        (some ⟨none, none, none⟩)).outcome = .err .missingName
    ∧ (glaukosConstruct .development ⟨[], [], 0⟩
        (some ⟨some "", none, none⟩)).outcome = .ok 0 :=
  c8_construction_errors_amended .development ⟨[], [], 0⟩ none .missingOptions
    none none (by decide) (by simp)

/-- C8 (counterexample to the claim as stated): at runtime a
construction with an empty-string name does *not* raise a configuration
error — it succeeds, allocating a slot for instance id 0. -/
theorem c8_construction_errors_counterexample :
    (glaukosConstruct .development ⟨[], [], 0⟩ (some ⟨some "", none, none⟩)).outcome
        = .ok 0
    ∧ (glaukosConstruct .development ⟨[], [], 0⟩
        (some ⟨some "", none, none⟩)).env.slotIds = [0] := by decide

end Glaukos
